import Mathlib

/-!
Shallow embedding of the Mythweaver rules engine
(`mythweaver_api/app/services/rules_engine.py`) and proofs about it.

Python integers are modelled as `Int` (Python ints are unbounded), Python
floor division `//` as `Int.fdiv`, Python dicts as association lists with
first-match lookup, and the random outputs of successive `roll_d12()` calls
as explicit integer arguments (`r1`, `r2`): a call site that rolls once
consumes only `r1`.  Functions that can raise are embedded with
`Except String` carrying the exception message.
-/

/-- Edge/Trouble modifiers for checks (`class EdgeType(Enum)`). -/
inductive EdgeType where
  | NONE
  | ADVANTAGE
  | DISADVANTAGE
deriving DecidableEq, Repr

/-- Check outcome categories (`class Outcome(Enum)`). -/
inductive Outcome where
  | FAILURE
  | NEAR_MISS
  | SUCCESS
  | STRONG_SUCCESS
deriving DecidableEq, Repr

/-- Result of a check with full breakdown (`@dataclass class CheckResult`). -/
structure CheckResult where
  total : Int
  difficulty : Int
  margin : Int
  outcome : Outcome
  dice_rolls : List Int
  attribute_bonus : Int
  skill_rank : Int
  situational_modifier : Int
  edge_type : EdgeType
deriving DecidableEq, Repr

/-- Effective attribute bonus: `calculate_attribute_bonus(score) = score // 2`
(Python floor division). -/
def calculate_attribute_bonus (score : Int) : Int :=
  Int.fdiv score 2

/-- Skill rank: `calculate_skill_rank(score) = score // 4` (Python floor
division). -/
def calculate_skill_rank (score : Int) : Int :=
  Int.fdiv score 4

/-- Check resolution: `perform_check` from the source, with the outputs of the (up to two)
`roll_d12()` calls passed in as `r1`, `r2`; the `NONE` branch rolls once and
consumes only `r1`. -/
def perform_check (attribute_score skill_score difficulty : Int)
    (edge : EdgeType) (situational_modifier : Int) (r1 r2 : Int) : CheckResult :=
  let attribute_bonus := calculate_attribute_bonus attribute_score
  let skill_rank := calculate_skill_rank skill_score
  let dr : Int × List Int :=
    match edge with
    | EdgeType.ADVANTAGE => (max r1 r2, [r1, r2])
    | EdgeType.DISADVANTAGE => (min r1 r2, [r1, r2])
    | EdgeType.NONE => (r1, [r1])
  let dice_result := dr.1
  let dice_rolls := dr.2
  let total := dice_result + attribute_bonus + skill_rank + situational_modifier
  let margin := total - difficulty
  let outcome :=
    if margin ≥ 5 then Outcome.STRONG_SUCCESS
    else if margin ≥ 0 then Outcome.SUCCESS
    else if margin ≥ -2 then Outcome.NEAR_MISS
    else Outcome.FAILURE
  { total := total
    difficulty := difficulty
    margin := margin
    outcome := outcome
    dice_rolls := dice_rolls
    attribute_bonus := attribute_bonus
    skill_rank := skill_rank
    situational_modifier := situational_modifier
    edge_type := edge }

/-- The §4.3 outcome tier table, written from the specification text:
`margin >= 5` STRONG_SUCCESS; `0 <= margin < 5` SUCCESS; `-2 <= margin < 0`
NEAR_MISS; `margin < -2` FAILURE. -/
def outcome_tier_spec (margin : Int) : Outcome :=
  if 5 ≤ margin then Outcome.STRONG_SUCCESS
  else if 0 ≤ margin ∧ margin < 5 then Outcome.SUCCESS
  else if -2 ≤ margin ∧ margin < 0 then Outcome.NEAR_MISS
  else Outcome.FAILURE

/-- The die value that `perform_check` feeds into the total, as a function of
the edge mode and the two successive roll outputs. -/
def dice_result_used (edge : EdgeType) (r1 r2 : Int) : Int :=
  match edge with
  | EdgeType.ADVANTAGE => max r1 r2
  | EdgeType.DISADVANTAGE => min r1 r2
  | EdgeType.NONE => r1

/-- C1: every `perform_check` result satisfies `margin = total - difficulty`,
and its `outcome` field is the pure function of `margin` given by the §4.3
tier table (in particular margin 5 ↦ STRONG_SUCCESS, 0 ↦ SUCCESS,
-2 ↦ NEAR_MISS, -3 ↦ FAILURE). -/
theorem C1_margin_law (a s d : Int) (edge : EdgeType) (m r1 r2 : Int) :
    (perform_check a s d edge m r1 r2).margin =
      (perform_check a s d edge m r1 r2).total - d ∧
    (perform_check a s d edge m r1 r2).outcome =
      outcome_tier_spec ((perform_check a s d edge m r1 r2).margin) ∧
    outcome_tier_spec 5 = Outcome.STRONG_SUCCESS ∧
    outcome_tier_spec 0 = Outcome.SUCCESS ∧
    outcome_tier_spec (-2) = Outcome.NEAR_MISS ∧
    outcome_tier_spec (-3) = Outcome.FAILURE := by
  refine ⟨?_, ?_, by decide, by decide, by decide, by decide⟩
  · cases edge <;> simp [perform_check]
  · cases edge <;>
      simp only [perform_check, outcome_tier_spec] <;>
      split_ifs <;> first | rfl | omega

/-- C2: under ADVANTAGE the die value used is the max of the two rolls and
both rolls are recorded in roll order; under DISADVANTAGE it is the min, both
recorded; under NONE the single roll is used and recorded. -/
theorem C2_edge_dice (a s d m r1 r2 : Int) :
    ((perform_check a s d EdgeType.ADVANTAGE m r1 r2).dice_rolls = [r1, r2] ∧
      (perform_check a s d EdgeType.ADVANTAGE m r1 r2).total =
        max r1 r2 + calculate_attribute_bonus a + calculate_skill_rank s + m) ∧
    ((perform_check a s d EdgeType.DISADVANTAGE m r1 r2).dice_rolls = [r1, r2] ∧
      (perform_check a s d EdgeType.DISADVANTAGE m r1 r2).total =
        min r1 r2 + calculate_attribute_bonus a + calculate_skill_rank s + m) ∧
    ((perform_check a s d EdgeType.NONE m r1 r2).dice_rolls = [r1] ∧
      (perform_check a s d EdgeType.NONE m r1 r2).total =
        r1 + calculate_attribute_bonus a + calculate_skill_rank s + m) := by
  refine ⟨⟨?_, ?_⟩, ⟨?_, ?_⟩, ⟨?_, ?_⟩⟩ <;> simp [perform_check]

/-- C3: the total is the die value determined by the edge rule plus
`floor(a/2)` plus `floor(s/4)` plus the situational modifier, where the two
floors are exactly `calculate_attribute_bonus` and `calculate_skill_rank`,
and those components, the modifier and the edge mode are captured unchanged
in the returned `CheckResult`. -/
theorem C3_total_decomposition (a s d : Int) (edge : EdgeType) (m r1 r2 : Int) :
    (perform_check a s d edge m r1 r2).total =
      dice_result_used edge r1 r2 + calculate_attribute_bonus a +
        calculate_skill_rank s + m ∧
    calculate_attribute_bonus a = Int.fdiv a 2 ∧
    calculate_skill_rank s = Int.fdiv s 4 ∧
    (perform_check a s d edge m r1 r2).attribute_bonus = calculate_attribute_bonus a ∧
    (perform_check a s d edge m r1 r2).skill_rank = calculate_skill_rank s ∧
    (perform_check a s d edge m r1 r2).situational_modifier = m ∧
    (perform_check a s d edge m r1 r2).edge_type = edge ∧
    (perform_check a s d edge m r1 r2).difficulty = d := by
  refine ⟨?_, rfl, rfl, ?_, ?_, ?_, ?_, ?_⟩ <;>
    cases edge <;> simp [perform_check, dice_result_used]

/-- C6: totality — for every integer attribute score, skill score, difficulty
and situational modifier (negative and out-of-range values included) and every
edge mode and pair of roll values, `perform_check` produces a `CheckResult`,
and the two bonus calculators produce an integer for every integer argument.
In the embedding all three are total functions, so the result always exists. -/
theorem C6_totality (a s d : Int) (edge : EdgeType) (m r1 r2 : Int) :
    (∃ res : CheckResult, perform_check a s d edge m r1 r2 = res ∧
      res.attribute_bonus = calculate_attribute_bonus a ∧
      res.skill_rank = calculate_skill_rank s) ∧
    (∃ b : Int, calculate_attribute_bonus a = b) ∧
    (∃ r : Int, calculate_skill_rank s = r) := by
  refine ⟨⟨perform_check a s d edge m r1 r2, rfl, ?_, ?_⟩, ⟨_, rfl⟩, ⟨_, rfl⟩⟩ <;>
    cases edge <;> simp [perform_check]

/-- Maximum HP: `calculate_max_hp(might) = 8 + (might * 2)`. -/
def calculate_max_hp (might_score : Int) : Int :=
  8 + might_score * 2

/-- Maximum Focus: `calculate_max_focus(wits, presence) = 4 + wits + presence`. -/
def calculate_max_focus (wits_score presence_score : Int) : Int :=
  4 + wits_score + presence_score

/-- Inventory capacity: `calculate_inventory_slots(might) = 8 + might`. -/
def calculate_inventory_slots (might_score : Int) : Int :=
  8 + might_score

/-- C8: the derived-stat formulas hold with exact integer arithmetic for every
integer input: maxHP(m) = 8 + 2m, maxFocus(w,p) = 4 + w + p,
inventorySlots(m) = 8 + m; in particular maxHP(3) = 14, maxFocus(4,2) = 10,
inventorySlots(3) = 11. -/
theorem C8_derived_stats (m w p : Int) :
    calculate_max_hp m = 8 + 2 * m ∧
    calculate_max_focus w p = 4 + w + p ∧
    calculate_inventory_slots m = 8 + m ∧
    calculate_max_hp 3 = 14 ∧
    calculate_max_focus 4 2 = 10 ∧
    calculate_inventory_slots 3 = 11 := by
  refine ⟨?_, rfl, rfl, by decide, by decide, by decide⟩
  simp [calculate_max_hp]; ring

/-- C10: the bonus calculators floor toward negative infinity, so every
negative score yields a strictly negative bonus (e.g. bonus(-1) = -1,
rank(-3) = -1), and a negative attribute or skill score passed to
`perform_check` strictly lowers the total compared to a score of 0. -/
theorem C10_negative_floors :
    calculate_attribute_bonus (-1) = -1 ∧
    calculate_skill_rank (-3) = -1 ∧
    (∀ sc : Int, sc < 0 →
      calculate_attribute_bonus sc < 0 ∧
      calculate_skill_rank sc < 0 ∧
      (∀ s d m r1 r2 : Int, ∀ edge : EdgeType,
        (perform_check sc s d edge m r1 r2).total <
          (perform_check 0 s d edge m r1 r2).total) ∧
      (∀ a d m r1 r2 : Int, ∀ edge : EdgeType,
        (perform_check a sc d edge m r1 r2).total <
          (perform_check a 0 d edge m r1 r2).total)) := by
  refine ⟨by decide, by decide, fun sc hsc => ?_⟩
  have hb : calculate_attribute_bonus sc < 0 := by
    simp only [calculate_attribute_bonus,
      Int.fdiv_eq_ediv sc (show (0:Int) ≤ 2 by omega)]
    omega
  have hr : calculate_skill_rank sc < 0 := by
    simp only [calculate_skill_rank,
      Int.fdiv_eq_ediv sc (show (0:Int) ≤ 4 by omega)]
    omega
  refine ⟨hb, hr, ?_, ?_⟩
  · intro s d m r1 r2 edge
    have h0 : calculate_attribute_bonus 0 = 0 := by decide
    cases edge <;> simp [perform_check] <;> omega
  · intro a d m r1 r2 edge
    have h0 : calculate_skill_rank 0 = 0 := by decide
    cases edge <;> simp [perform_check] <;> omega

/-- Witness for C10: instantiates the negative-score clause at sc = -1 with
concrete check inputs. -/
theorem C10_negative_floors_witness :
    calculate_attribute_bonus (-1) < 0 ∧
    (perform_check (-1) 0 7 EdgeType.NONE 0 6 6).total <
      (perform_check 0 0 7 EdgeType.NONE 0 6 6).total := by
  obtain ⟨_, _, h⟩ := C10_negative_floors
  obtain ⟨hb, _, ht, _⟩ := h (-1) (by decide)
  exact ⟨hb, ht 0 7 0 6 6 EdgeType.NONE⟩

/-! ## Character-creation validation

Python dicts are modelled as association lists with first-binding lookup
(Python dict keys are unique, so on inputs representing real dicts the two
agree).  `validate_character_creation` raises `ValidationError`; the
embedding returns `Except String Bool` with the error carrying the message.
A talent dict is embedded as the list of its keys, since the source only
tests key membership. -/

/-- Dict access, Python `d[k]` / `k in d`, on the association-list model. -/
def dictGet (d : List (String × Int)) (k : String) : Option Int :=
  (d.find? (fun p => p.1 == k)).map Prod.snd

/-- Dict access `d[k]` at a key already known present (the default is
unreachable then). -/
def dictGetD (d : List (String × Int)) (k : String) : Int :=
  (dictGet d k).getD 0

/-- The four required attribute names, in source order. -/
def required_attrs : List String := ["might", "agility", "wits", "presence"]

/-- The ten canonical skill names (`required_skills` in the source). -/
def required_skills : List String :=
  ["Blade", "Bow", "Brawl", "Sneak", "Survival",
   "Lore", "Craft", "Influence", "Insight", "Channel"]

/-- The shared shape of the two presence/range loops of
`validate_character_creation`: for each required key in order, raise (with
message `missMsg key`) on a missing key, then (with `rangeMsg key score`) on
a score outside [0,20]. -/
def check_scores (missMsg : String → String) (rangeMsg : String → Int → String) :
    List String → List (String × Int) → Except String Unit
  | [], _ => Except.ok ()
  | key :: rest, d =>
    match dictGet d key with
    | none => Except.error (missMsg key)
    | some score =>
      if 0 ≤ score ∧ score ≤ 20 then check_scores missMsg rangeMsg rest d
      else Except.error (rangeMsg key score)

/-- The attribute loop of `validate_character_creation` (raise on missing
attribute, then on a score outside [0,20], per attribute in order). -/
def check_required_attrs : List String → List (String × Int) → Except String Unit :=
  check_scores (fun attr => "Missing attribute: " ++ attr)
    (fun attr score => "Attribute " ++ attr ++ " must be 0-20, got " ++ toString score)

/-- The skill loop of `validate_character_creation` (raise on missing skill,
then on a score outside [0,20], per canonical skill in order). -/
def check_required_skills : List String → List (String × Int) → Except String Unit :=
  check_scores (fun skill => "Missing skill: " ++ skill)
    (fun skill score => "Skill " ++ skill ++ " must be 0-20, got " ++ toString score)

/-- The single-quote character used inside the talent error message. -/
def squote : String := String.singleton (Char.ofNat 39)

/-- Attribute total, `sum(attributes[attr] for attr in required_attrs)`. -/
def attr_sum (attributes : List (String × Int)) : Int :=
  (required_attrs.map (fun a => dictGetD attributes a)).sum

/-- Selected skills, `[skill for skill, score in skills.items() if score > 0]`
— note this
ranges over every entry of the map, not only the canonical skills. -/
def selected_skills (skills : List (String × Int)) : List String :=
  (skills.filter (fun p => p.2 > 0)).map Prod.fst

/-- Full validator `validate_character_creation` from the source: raises (returns
`Except.error msg`) on the first violated rule, in source order, and returns
`True` when all rules pass.  `path_id` is accepted and ignored, as in the
source. -/
def validate_character_creation (attributes skills : List (String × Int))
    (talents : List (List String)) (path_id : String) : Except String Bool :=
  match check_required_attrs required_attrs attributes with
  | Except.error e => Except.error e
  | Except.ok _ =>
    let attr_total := attr_sum attributes
    if attr_total ≠ 15 then
      Except.error ("Attributes must sum to 15, got " ++ toString attr_total)
    else
      match check_required_skills required_skills skills with
      | Except.error e => Except.error e
      | Except.ok _ =>
        if (selected_skills skills).length ≠ 3 then
          Except.error ("Must select exactly 3 starting skills, got " ++
            toString (selected_skills skills).length)
        else if talents.length ≠ 2 then
          Except.error ("Must select exactly 2 starting talents, got " ++
            toString talents.length)
        else
          match talents.find? (fun t => !t.contains "name") with
          | some _ =>
            Except.error ("Talent missing " ++ squote ++ "name" ++ squote ++ " field")
          | none => Except.ok true

/-- One character list occurs contiguously inside another. -/
def charsInfix (needle : List Char) : List Char → Bool
  | [] => needle.isEmpty
  | c :: rest => needle.isPrefixOf (c :: rest) || charsInfix needle rest

/-- Substring test: `needle` occurs as a substring of `haystack`. -/
def mentions (needle haystack : String) : Bool :=
  charsInfix needle.toList haystack.toList

/-- A well-formed skill map: the ten canonical skills, exactly three with a
non-zero score. -/
def valid_skills : List (String × Int) :=
  [("Blade", 4), ("Bow", 2), ("Brawl", 0), ("Sneak", 0), ("Survival", 1),
   ("Lore", 0), ("Craft", 0), ("Influence", 0), ("Insight", 0), ("Channel", 0)]

/-- A well-formed talent list: two talents, each carrying a name key. -/
def valid_talents : List (List String) := [["name", "requirements"], ["name"]]

/-- C4 counterexample: with attributes might:22, agility:4, wits:3,
presence:2 (sum 31 ≠ 15) and an otherwise-valid skill set and talent list,
the validator raises the attribute-range error, whose message does not
mention "sum to 15" — the per-attribute range rule fires before the sum
rule. -/
theorem C4_counterexample :
    validate_character_creation
        [("might", 22), ("agility", 4), ("wits", 3), ("presence", 2)]
        valid_skills valid_talents "warden" =
      Except.error "Attribute might must be 0-20, got 22" ∧
    mentions "sum to 15" "Attribute might must be 0-20, got 22" = false := by
  exact ⟨rfl, by decide⟩

/-- C4 amended: with might:22 the validator raises the attribute-range
failure ("Attribute might must be 0-20, got 22"), mentioning "must be 0-20",
before any skill-related rule is checked (the skill map and talent list are
arbitrary); a failure mentioning "sum to 15" is raised — likewise before any
skill rule — when the four attributes are in range but sum to something
other than 15. -/
theorem C4_amended (skills : List (String × Int)) (talents : List (List String))
    (path_id : String) :
    validate_character_creation
        [("might", 22), ("agility", 4), ("wits", 3), ("presence", 2)]
        skills talents path_id =
      Except.error "Attribute might must be 0-20, got 22" ∧
    validate_character_creation
        [("might", 6), ("agility", 4), ("wits", 3), ("presence", 3)]
        skills talents path_id =
      Except.error "Attributes must sum to 15, got 16" ∧
    mentions "must be 0-20" "Attribute might must be 0-20, got 22" = true ∧
    mentions "sum to 15" "Attributes must sum to 15, got 16" = true := by
  exact ⟨rfl, rfl, by decide, by decide⟩

/-- Attributes {might:6, agility:4, wits:3, presence:2}: in range, sum 15. -/
def creation_example_attrs : List (String × Int) :=
  [("might", 6), ("agility", 4), ("wits", 3), ("presence", 2)]

/-- Ten canonical skills with exactly three non-zero, plus one extra
non-canonical entry with a non-zero score. -/
def skills_with_extra_selected : List (String × Int) :=
  [("Blade", 1), ("Bow", 1), ("Brawl", 1), ("Sneak", 0), ("Survival", 0),
   ("Lore", 0), ("Craft", 0), ("Influence", 0), ("Insight", 0), ("Channel", 0),
   ("Dance", 1)]

/-- Ten canonical skills with two non-zero, plus one extra non-canonical
entry whose score 99 is far out of range. -/
def skills_with_extra_out_of_range : List (String × Int) :=
  [("Blade", 1), ("Bow", 1), ("Brawl", 0), ("Sneak", 0), ("Survival", 0),
   ("Lore", 0), ("Craft", 0), ("Influence", 0), ("Insight", 0), ("Channel", 0),
   ("Dance", 99)]

/-- C9: the "exactly 3 starting skills" count ranges over every entry of the
skills map: an extra non-canonical non-zero entry on top of three non-zero
canonical skills is rejected with "Must select exactly 3 starting skills,
got 4" (which contains the claimed phrase); and extra entries are never
range-checked — an extra entry with score 99 passes validation when the
overall non-zero count is 3. -/
theorem C9_count_over_all_entries :
    validate_character_creation creation_example_attrs skills_with_extra_selected
        valid_talents "warden" =
      Except.error "Must select exactly 3 starting skills, got 4" ∧
    mentions "elect exactly 3 starting skills, got 4"
        "Must select exactly 3 starting skills, got 4" = true ∧
    validate_character_creation creation_example_attrs skills_with_extra_out_of_range
        valid_talents "warden" =
      Except.ok true := by
  exact ⟨rfl, by decide, rfl⟩

/-! ## The six §4.4 rules, written from the specification text -/

/-- One required key is present in the map with a score in [0,20]. -/
def score_entry_ok (d : List (String × Int)) (a : String) : Bool :=
  match dictGet d a with
  | some s => decide (0 ≤ s ∧ s ≤ 20)
  | none => false

/-- Rule 1 of section 4.4: all four attributes present, each in [0,20]. -/
def rule1_attrs_present_in_range (attributes : List (String × Int)) : Bool :=
  required_attrs.all (score_entry_ok attributes)

/-- Rule 2 of section 4.4: the four attribute scores sum to exactly 15. -/
def rule2_attr_sum_15 (attributes : List (String × Int)) : Bool :=
  decide (attr_sum attributes = 15)

/-- Rule 3 of section 4.4: all ten canonical skills present, each in [0,20]. -/
def rule3_skills_present_in_range (skills : List (String × Int)) : Bool :=
  required_skills.all (score_entry_ok skills)

/-- Rule 4 of section 4.4: exactly 3 entries of the skill map have non-zero
score. -/
def rule4_three_starting_skills (skills : List (String × Int)) : Bool :=
  decide ((selected_skills skills).length = 3)

/-- Rule 5 of section 4.4: exactly 2 talents supplied. -/
def rule5_two_talents (talents : List (List String)) : Bool :=
  decide (talents.length = 2)

/-- Rule 6 of section 4.4: each talent entry carries a name key. -/
def rule6_talents_named (talents : List (List String)) : Bool :=
  talents.all (fun t => t.contains "name")

/-- A scores loop succeeds exactly when every listed key is present with a
score in range. -/
theorem check_scores_ok_iff (missMsg : String → String)
    (rangeMsg : String → Int → String) (l : List String)
    (d : List (String × Int)) :
    check_scores missMsg rangeMsg l d = Except.ok () ↔
      l.all (score_entry_ok d) = true := by
  induction l with
  | nil => simp [check_scores]
  | cons a rest ih =>
    simp only [check_scores, List.all_cons, Bool.and_eq_true]
    cases h : dictGet d a with
    | none => simp [score_entry_ok, h]
    | some s =>
      by_cases hs : 0 ≤ s ∧ s ≤ 20
      · simp [hs, ih, score_entry_ok, h]
      · simp [hs, score_entry_ok, h]

/-- When a scores loop raises, the message is the missing-key message or the
out-of-range message of one of the listed keys. -/
theorem check_scores_error_shape (missMsg : String → String)
    (rangeMsg : String → Int → String) (l : List String)
    (d : List (String × Int)) (e : String) :
    check_scores missMsg rangeMsg l d = Except.error e →
      ∃ a ∈ l, (dictGet d a = none ∧ e = missMsg a) ∨
        ∃ s, dictGet d a = some s ∧ ¬(0 ≤ s ∧ s ≤ 20) ∧ e = rangeMsg a s := by
  induction l with
  | nil => simp [check_scores]
  | cons a rest ih =>
    simp only [check_scores]
    cases h : dictGet d a with
    | none =>
      intro he
      have he' : Except.error (ε := String) (missMsg a) = Except.error e := he
      injection he' with h1
      exact ⟨a, List.mem_cons_self a rest, Or.inl ⟨h, h1.symm⟩⟩
    | some s =>
      intro he
      have he' : (if 0 ≤ s ∧ s ≤ 20 then check_scores missMsg rangeMsg rest d
          else Except.error (rangeMsg a s)) = Except.error e := he
      by_cases hs : 0 ≤ s ∧ s ≤ 20
      · rw [if_pos hs] at he'
        obtain ⟨b, hb, hsh⟩ := ih he'
        exact ⟨b, List.mem_cons_of_mem a hb, hsh⟩
      · rw [if_neg hs] at he'
        injection he' with h1
        exact ⟨a, List.mem_cons_self a rest, Or.inr ⟨s, h, hs, h1.symm⟩⟩

/-- The attribute loop succeeds exactly when §4.4 rule 1 holds. -/
theorem check_required_attrs_ok_iff (attributes : List (String × Int)) :
    check_required_attrs required_attrs attributes = Except.ok () ↔
      rule1_attrs_present_in_range attributes = true :=
  check_scores_ok_iff _ _ required_attrs attributes

/-- When the attribute loop raises, rule 1 is violated. -/
theorem check_required_attrs_error_rule1 (attributes : List (String × Int))
    (e : String) :
    check_required_attrs required_attrs attributes = Except.error e →
      rule1_attrs_present_in_range attributes = false := by
  intro h
  rw [← Bool.not_eq_true]
  intro hal
  have hok := (check_required_attrs_ok_iff attributes).mpr hal
  rw [h] at hok
  exact absurd hok (by simp)

/-- The attribute loop's error is the missing-key or out-of-range message of
one of the four required attributes. -/
theorem check_required_attrs_error_shape (attributes : List (String × Int))
    (e : String) :
    check_required_attrs required_attrs attributes = Except.error e →
      ∃ a ∈ required_attrs,
        (dictGet attributes a = none ∧ e = "Missing attribute: " ++ a) ∨
        ∃ s, dictGet attributes a = some s ∧ ¬(0 ≤ s ∧ s ≤ 20) ∧
          e = "Attribute " ++ a ++ " must be 0-20, got " ++ toString s :=
  check_scores_error_shape _ _ required_attrs attributes e

/-- The skill loop succeeds exactly when §4.4 rule 3 holds. -/
theorem check_required_skills_ok_iff (skills : List (String × Int)) :
    check_required_skills required_skills skills = Except.ok () ↔
      rule3_skills_present_in_range skills = true :=
  check_scores_ok_iff _ _ required_skills skills

/-- When the skill loop raises, rule 3 is violated. -/
theorem check_required_skills_error_rule3 (skills : List (String × Int))
    (e : String) :
    check_required_skills required_skills skills = Except.error e →
      rule3_skills_present_in_range skills = false := by
  intro h
  rw [← Bool.not_eq_true]
  intro hal
  have hok := (check_required_skills_ok_iff skills).mpr hal
  rw [h] at hok
  exact absurd hok (by simp)

/-- The skill loop's error is the missing-key or out-of-range message of one
of the ten canonical skills. -/
theorem check_required_skills_error_shape (skills : List (String × Int))
    (e : String) :
    check_required_skills required_skills skills = Except.error e →
      ∃ a ∈ required_skills,
        (dictGet skills a = none ∧ e = "Missing skill: " ++ a) ∨
        ∃ s, dictGet skills a = some s ∧ ¬(0 ≤ s ∧ s ≤ 20) ∧
          e = "Skill " ++ a ++ " must be 0-20, got " ++ toString s :=
  check_scores_error_shape _ _ required_skills skills e

/-- C5: `validate_character_creation` succeeds exactly when all six §4.4
rules hold, and on rejection it raises a single error for the first violated
rule in the fixed order — (1) attributes present and in [0,20], (2) attribute
sum 15, (3) canonical skills present and in [0,20], (4) exactly 3 non-zero
skills, (5) exactly 2 talents, (6) each talent named — with the message of
that rule; and the canonical valid example is accepted with no error. -/
theorem C5_first_violation_order (attributes skills : List (String × Int))
    (talents : List (List String)) (path_id : String) :
    (validate_character_creation attributes skills talents path_id = Except.ok true ↔
      (rule1_attrs_present_in_range attributes = true ∧
       rule2_attr_sum_15 attributes = true ∧
       rule3_skills_present_in_range skills = true ∧
       rule4_three_starting_skills skills = true ∧
       rule5_two_talents talents = true ∧
       rule6_talents_named talents = true)) ∧
    (rule1_attrs_present_in_range attributes = false →
      ∃ e, validate_character_creation attributes skills talents path_id =
          Except.error e ∧
        ∃ a ∈ required_attrs,
          (dictGet attributes a = none ∧ e = "Missing attribute: " ++ a) ∨
          ∃ s, dictGet attributes a = some s ∧ ¬(0 ≤ s ∧ s ≤ 20) ∧
            e = "Attribute " ++ a ++ " must be 0-20, got " ++ toString s) ∧
    (rule1_attrs_present_in_range attributes = true →
      rule2_attr_sum_15 attributes = false →
      validate_character_creation attributes skills talents path_id =
        Except.error ("Attributes must sum to 15, got " ++
          toString (attr_sum attributes))) ∧
    (rule1_attrs_present_in_range attributes = true →
      rule2_attr_sum_15 attributes = true →
      rule3_skills_present_in_range skills = false →
      ∃ e, validate_character_creation attributes skills talents path_id =
          Except.error e ∧
        ∃ a ∈ required_skills,
          (dictGet skills a = none ∧ e = "Missing skill: " ++ a) ∨
          ∃ s, dictGet skills a = some s ∧ ¬(0 ≤ s ∧ s ≤ 20) ∧
            e = "Skill " ++ a ++ " must be 0-20, got " ++ toString s) ∧
    (rule1_attrs_present_in_range attributes = true →
      rule2_attr_sum_15 attributes = true →
      rule3_skills_present_in_range skills = true →
      rule4_three_starting_skills skills = false →
      validate_character_creation attributes skills talents path_id =
        Except.error ("Must select exactly 3 starting skills, got " ++
          toString (selected_skills skills).length)) ∧
    (rule1_attrs_present_in_range attributes = true →
      rule2_attr_sum_15 attributes = true →
      rule3_skills_present_in_range skills = true →
      rule4_three_starting_skills skills = true →
      rule5_two_talents talents = false →
      validate_character_creation attributes skills talents path_id =
        Except.error ("Must select exactly 2 starting talents, got " ++
          toString talents.length)) ∧
    (rule1_attrs_present_in_range attributes = true →
      rule2_attr_sum_15 attributes = true →
      rule3_skills_present_in_range skills = true →
      rule4_three_starting_skills skills = true →
      rule5_two_talents talents = true →
      rule6_talents_named talents = false →
      validate_character_creation attributes skills talents path_id =
        Except.error ("Talent missing " ++ squote ++ "name" ++ squote ++ " field")) ∧
    validate_character_creation creation_example_attrs valid_skills valid_talents
      "warden" = Except.ok true := by
  have hex : validate_character_creation creation_example_attrs valid_skills
      valid_talents "warden" = Except.ok true := rfl
  rcases hA : check_required_attrs required_attrs attributes with eA | uA
  · have h1 := check_required_attrs_error_rule1 attributes eA hA
    have hv : validate_character_creation attributes skills talents path_id =
        Except.error eA := by
      simp [validate_character_creation, hA]
    refine ⟨?_, ?_, ?_, ?_, ?_, ?_, ?_, hex⟩
    · rw [hv]; simp [h1]
    · intro _
      exact ⟨eA, hv, check_required_attrs_error_shape attributes eA hA⟩
    all_goals intro hr1; exact absurd hr1 (by simp [h1])
  · have h1 : rule1_attrs_present_in_range attributes = true :=
      (check_required_attrs_ok_iff attributes).mp hA
    by_cases h2 : attr_sum attributes = 15
    · rcases hS : check_required_skills required_skills skills with eS | uS
      · have h3 := check_required_skills_error_rule3 skills eS hS
        have hv : validate_character_creation attributes skills talents path_id =
            Except.error eS := by
          simp [validate_character_creation, hA, h2, hS]
        refine ⟨?_, ?_, ?_, ?_, ?_, ?_, ?_, hex⟩
        · rw [hv]; simp [h3]
        · intro hr1; exact absurd hr1 (by simp [h1])
        · intro _ hr2; exact absurd hr2 (by simp [rule2_attr_sum_15, h2])
        · intro _ _ _
          exact ⟨eS, hv, check_required_skills_error_shape skills eS hS⟩
        all_goals intro _ _ hr3; exact absurd hr3 (by simp [h3])
      · have h3 : rule3_skills_present_in_range skills = true :=
          (check_required_skills_ok_iff skills).mp hS
        by_cases h4 : (selected_skills skills).length = 3
        · by_cases h5 : talents.length = 2
          · rcases hF : talents.find? (fun t => !t.contains "name") with _ | t
            · have h6 : rule6_talents_named talents = true := by
                simp only [rule6_talents_named, List.all_eq_true]
                intro t ht
                have := List.find?_eq_none.mp hF t ht
                simpa using this
              have hF' : List.find? (fun t => !decide ("name" ∈ t)) talents =
                  none := by simpa using hF
              have hv : validate_character_creation attributes skills talents
                  path_id = Except.ok true := by
                simp [validate_character_creation, hA, h2, hS, h4, h5, hF']
              refine ⟨?_, ?_, ?_, ?_, ?_, ?_, ?_, hex⟩
              · rw [hv]
                simp [h1, rule2_attr_sum_15, h2, h3,
                  rule4_three_starting_skills, h4, rule5_two_talents, h5, h6]
              · intro hr1; exact absurd hr1 (by simp [h1])
              · intro _ hr2; exact absurd hr2 (by simp [rule2_attr_sum_15, h2])
              · intro _ _ hr3; exact absurd hr3 (by simp [h3])
              · intro _ _ _ hr4
                exact absurd hr4 (by simp [rule4_three_starting_skills, h4])
              · intro _ _ _ _ hr5
                exact absurd hr5 (by simp [rule5_two_talents, h5])
              · intro _ _ _ _ _ hr6; exact absurd hr6 (by simp [h6])
            · have hpt := List.find?_some hF
              have hmem := List.mem_of_find?_eq_some hF
              have h6 : rule6_talents_named talents = false := by
                simp only [rule6_talents_named, List.all_eq_false]
                exact ⟨t, hmem, by simpa using hpt⟩
              have hF' : List.find? (fun t => !decide ("name" ∈ t)) talents =
                  some t := by simpa using hF
              have hv : validate_character_creation attributes skills talents
                  path_id = Except.error
                    ("Talent missing " ++ squote ++ "name" ++ squote ++ " field") := by
                simp [validate_character_creation, hA, h2, hS, h4, h5, hF']
              refine ⟨?_, ?_, ?_, ?_, ?_, ?_, ?_, hex⟩
              · rw [hv]; simp [h6]
              · intro hr1; exact absurd hr1 (by simp [h1])
              · intro _ hr2; exact absurd hr2 (by simp [rule2_attr_sum_15, h2])
              · intro _ _ hr3; exact absurd hr3 (by simp [h3])
              · intro _ _ _ hr4
                exact absurd hr4 (by simp [rule4_three_starting_skills, h4])
              · intro _ _ _ _ hr5
                exact absurd hr5 (by simp [rule5_two_talents, h5])
              · intro _ _ _ _ _ _; exact hv
          · have hv : validate_character_creation attributes skills talents
                path_id = Except.error
                  ("Must select exactly 2 starting talents, got " ++
                    toString talents.length) := by
              simp [validate_character_creation, hA, h2, hS, h4, h5]
            refine ⟨?_, ?_, ?_, ?_, ?_, ?_, ?_, hex⟩
            · rw [hv]; simp [rule5_two_talents, h5]
            · intro hr1; exact absurd hr1 (by simp [h1])
            · intro _ hr2; exact absurd hr2 (by simp [rule2_attr_sum_15, h2])
            · intro _ _ hr3; exact absurd hr3 (by simp [h3])
            · intro _ _ _ hr4
              exact absurd hr4 (by simp [rule4_three_starting_skills, h4])
            · intro _ _ _ _ _; exact hv
            · intro _ _ _ _ hr5
              exact absurd hr5 (by simp [rule5_two_talents, h5])
        · have hv : validate_character_creation attributes skills talents
              path_id = Except.error
                ("Must select exactly 3 starting skills, got " ++
                  toString (selected_skills skills).length) := by
            simp [validate_character_creation, hA, h2, hS, h4]
          refine ⟨?_, ?_, ?_, ?_, ?_, ?_, ?_, hex⟩
          · rw [hv]; simp [rule4_three_starting_skills, h4]
          · intro hr1; exact absurd hr1 (by simp [h1])
          · intro _ hr2; exact absurd hr2 (by simp [rule2_attr_sum_15, h2])
          · intro _ _ hr3; exact absurd hr3 (by simp [h3])
          · intro _ _ _ _; exact hv
          all_goals intro _ _ _ hr4
          all_goals exact absurd hr4 (by simp [rule4_three_starting_skills, h4])
    · have hv : validate_character_creation attributes skills talents path_id =
          Except.error ("Attributes must sum to 15, got " ++
            toString (attr_sum attributes)) := by
        simp [validate_character_creation, hA, h2]
      refine ⟨?_, ?_, ?_, ?_, ?_, ?_, ?_, hex⟩
      · rw [hv]; simp [rule2_attr_sum_15, h2]
      · intro hr1; exact absurd hr1 (by simp [h1])
      · intro _ _; exact hv
      all_goals intro _ hr2
      all_goals exact absurd hr2 (by simp [rule2_attr_sum_15, h2])

/-- Witness for C5: the empty attribute map violates rule 1, and the
validator raises a missing-attribute error for it; the canonical valid
example is accepted. -/
theorem C5_first_violation_order_witness :
    rule1_attrs_present_in_range [] = false ∧
    (∃ e, validate_character_creation [] valid_skills valid_talents "warden" =
        Except.error e ∧
      ∃ a ∈ required_attrs,
        (dictGet [] a = none ∧ e = "Missing attribute: " ++ a) ∨
        ∃ s, dictGet [] a = some s ∧ ¬(0 ≤ s ∧ s ≤ 20) ∧
          e = "Attribute " ++ a ++ " must be 0-20, got " ++ toString s) ∧
    validate_character_creation creation_example_attrs valid_skills valid_talents
      "warden" = Except.ok true := by
  have h := C5_first_violation_order [] valid_skills valid_talents "warden"
  exact ⟨by decide, h.2.1 (by decide), h.2.2.2.2.2.2.2⟩

/-! ## Attribute-allocation quick validator

`validate_attribute_allocation` wraps its body in `try/except` and returns a
`bool`.  To model the blanket exception catch, attribute values are a Python
value type: an integer, or a non-integer value on which arithmetic and
comparison raise `TypeError`. -/

/-- A value stored in the attribute dict handed to the UI validator. -/
inductive PyVal where
  | int (i : Int)
  | other (tag : String)
deriving DecidableEq, Repr

/-- Python `d[k]` / `k in d` on a dict with `PyVal` values. -/
def pyDictGet (d : List (String × PyVal)) (k : String) : Option PyVal :=
  (d.find? (fun p => p.1 == k)).map Prod.snd

/-- Python sum, `sum(attributes[attr] for attr in required)`: adds the listed
values in
order, raising `TypeError` at the first non-integer value and `KeyError` at a
missing key (unreachable after the presence check). -/
def py_sum_attrs : List String → List (String × PyVal) → Except String Int
  | [], _ => Except.ok 0
  | a :: rest, attributes =>
    match pyDictGet attributes a with
    | none => Except.error "KeyError"
    | some (PyVal.other _) => Except.error "TypeError"
    | some (PyVal.int i) =>
      match py_sum_attrs rest attributes with
      | Except.ok t => Except.ok (i + t)
      | Except.error e => Except.error e

/-- The range loop of `validate_attribute_allocation`:
`if not 0 <= attributes[attr] <= 20: return False` for each required
attribute in order; comparing a non-integer raises `TypeError`. -/
def check_attr_ranges : List String → List (String × PyVal) → Except String Bool
  | [], _ => Except.ok true
  | a :: rest, attributes =>
    match pyDictGet attributes a with
    | none => Except.error "KeyError"
    | some (PyVal.other _) => Except.error "TypeError"
    | some (PyVal.int i) =>
      if 0 ≤ i ∧ i ≤ 20 then check_attr_ranges rest attributes
      else Except.ok false

/-- The `try:` block of `validate_attribute_allocation`: presence of the four
required keys, sum equal to 15, then all scores in range. -/
def validate_attribute_allocation_body (attributes : List (String × PyVal)) :
    Except String Bool :=
  if required_attrs.all (fun a => (pyDictGet attributes a).isSome) then
    match py_sum_attrs required_attrs attributes with
    | Except.error e => Except.error e
    | Except.ok total =>
      if total ≠ 15 then Except.ok false
      else check_attr_ranges required_attrs attributes
  else Except.ok false

/-- Quick validator `validate_attribute_allocation`: the `except:` clause
turns any raised
exception into `False`, so the function always returns a boolean. -/
def validate_attribute_allocation (attributes : List (String × PyVal)) : Bool :=
  match validate_attribute_allocation_body attributes with
  | Except.ok b => b
  | Except.error _ => false

/-- C7: `validate_attribute_allocation` always returns a boolean (any raised
exception — missing key, non-integer value — is swallowed and yields
`false`), and it returns `true` exactly when all four attributes are present
as integers, each is in [0,20], and they sum to 15. -/
theorem C7_allocation_valid_iff (attributes : List (String × PyVal)) :
    validate_attribute_allocation attributes = true ↔
      ∃ m a w p : Int,
        pyDictGet attributes "might" = some (PyVal.int m) ∧
        pyDictGet attributes "agility" = some (PyVal.int a) ∧
        pyDictGet attributes "wits" = some (PyVal.int w) ∧
        pyDictGet attributes "presence" = some (PyVal.int p) ∧
        0 ≤ m ∧ m ≤ 20 ∧ 0 ≤ a ∧ a ≤ 20 ∧ 0 ≤ w ∧ w ≤ 20 ∧
        0 ≤ p ∧ p ≤ 20 ∧ m + a + w + p = 15 := by
  rcases hm : pyDictGet attributes "might" with _ | vm
  · simp [validate_attribute_allocation, validate_attribute_allocation_body,
      required_attrs, hm]
  rcases ha : pyDictGet attributes "agility" with _ | va
  · simp [validate_attribute_allocation, validate_attribute_allocation_body,
      required_attrs, hm, ha]
  rcases hw : pyDictGet attributes "wits" with _ | vw
  · simp [validate_attribute_allocation, validate_attribute_allocation_body,
      required_attrs, hm, ha, hw]
  rcases hp : pyDictGet attributes "presence" with _ | vp
  · simp [validate_attribute_allocation, validate_attribute_allocation_body,
      required_attrs, hm, ha, hw, hp]
  cases vm with
  | other tm =>
    simp [validate_attribute_allocation, validate_attribute_allocation_body,
      py_sum_attrs, required_attrs, hm, ha, hw, hp]
  | int m =>
    cases va with
    | other ta =>
      simp [validate_attribute_allocation, validate_attribute_allocation_body,
        py_sum_attrs, required_attrs, hm, ha, hw, hp]
    | int a =>
      cases vw with
      | other tw =>
        simp [validate_attribute_allocation, validate_attribute_allocation_body,
          py_sum_attrs, required_attrs, hm, ha, hw, hp]
      | int w =>
        cases vp with
        | other tp =>
          simp [validate_attribute_allocation, validate_attribute_allocation_body,
            py_sum_attrs, required_attrs, hm, ha, hw, hp]
        | int p =>
          simp only [validate_attribute_allocation,
            validate_attribute_allocation_body, py_sum_attrs, check_attr_ranges,
            required_attrs, hm, ha, hw, hp, List.all_cons, List.all_nil,
            Option.isSome_some, Bool.and_true, Bool.and_self, if_true]
          by_cases hsum : m + a + w + p = 15
          · rw [if_neg (by omega : ¬(m + (a + (w + (p + 0))) ≠ 15))]
            constructor
            · intro hres
              refine ⟨m, a, w, p, rfl, rfl, rfl, rfl, ?_⟩
              by_cases h1 : 0 ≤ m ∧ m ≤ 20
              · rw [if_pos h1] at hres
                by_cases h2 : 0 ≤ a ∧ a ≤ 20
                · rw [if_pos h2] at hres
                  by_cases h3 : 0 ≤ w ∧ w ≤ 20
                  · rw [if_pos h3] at hres
                    by_cases h4 : 0 ≤ p ∧ p ≤ 20
                    · omega
                    · rw [if_neg h4] at hres; simp at hres
                  · rw [if_neg h3] at hres; simp at hres
                · rw [if_neg h2] at hres; simp at hres
              · rw [if_neg h1] at hres; simp at hres
            · rintro ⟨m', a', w', p', hm', ha', hw', hp', hrng⟩
              injection hm' with hm''; injection ha' with ha''
              injection hw' with hw''; injection hp' with hp''
              injection hm'' with hm3; injection ha'' with ha3
              injection hw'' with hw3; injection hp'' with hp3
              subst hm3; subst ha3; subst hw3; subst hp3
              rw [if_pos (by omega), if_pos (by omega), if_pos (by omega),
                if_pos (by omega)]
          · rw [if_pos (by omega : m + (a + (w + (p + 0))) ≠ 15)]
            constructor
            · intro hres; simp at hres
            · rintro ⟨m', a', w', p', hm', ha', hw', hp', hrng⟩
              injection hm' with hm''; injection ha' with ha''
              injection hw' with hw''; injection hp' with hp''
              injection hm'' with hm3; injection ha'' with ha3
              injection hw'' with hw3; injection hp'' with hp3
              subst hm3; subst ha3; subst hw3; subst hp3
              omega

/-- A valid allocation: the four attributes as integers 6, 4, 3, 2. -/
def allocation_example : List (String × PyVal) :=
  [("might", PyVal.int 6), ("agility", PyVal.int 4),
   ("wits", PyVal.int 3), ("presence", PyVal.int 2)]

/-- Witness for C7: the example allocation is accepted, via the right-to-left
direction of the iff at concrete values. -/
theorem C7_allocation_valid_iff_witness :
    validate_attribute_allocation allocation_example = true :=
  (C7_allocation_valid_iff allocation_example).mpr ⟨6, 4, 3, 2, by decide⟩
